import Mathlib

/-!
Shallow embedding of the connection state machine of
`psycopg2cffi/_impl/connection.py` (class `Connection`), together with
theorems checking the natural-language specification against it.

The transport layer (libpq) is modelled by an `Env` record of oracle
answers: each field stands for the answer the C library would give to the
corresponding call (`PQexec` succeeding, `PQstatus` reporting
`CONNECTION_BAD`, `PQisBusy`, `PQflush`, ...).  Stateful Python code
becomes explicit state passing on `PgState`; `raise` becomes the error arm
of `Except`, carrying the state as mutated up to the raise.  The `sent`
field of `PgState` is the trace of command strings handed to the
transport, used to state "no command is sent" properties.
-/

namespace Psycopg

/-- Connection status values (`consts.STATUS_*`). -/
inductive Status where
  | setup
  | connecting
  | datestyle
  | ready
  | begin_
  | prepared
deriving DecidableEq, Repr

/-- Async command sub-state (`consts.ASYNC_*`). -/
inductive AsyncStatus where
  | write
  | read
  | done
deriving DecidableEq, Repr

/-- Result values of `poll()` (`consts.POLL_*`). -/
inductive Poll where
  | ok
  | read
  | write
  | err
deriving DecidableEq, Repr

/-- Results of `PQconnectPoll` (`libpq.PGRES_POLLING_*`). -/
inductive PollingStatus where
  | ok
  | reading
  | writing
  | failed
  | active
deriving DecidableEq, Repr

/-- The exception taxonomy of the driver (`psycopg2cffi._impl.exceptions`
plus the Python builtins the connection code raises). -/
inductive ExcKind where
  | interfaceError
  | programmingError
  | operationalError
  | internalError
  | integrityError
  | dataError
  | notSupportedError
  | databaseError
  | valueError
  | typeError
  | keyError
deriving DecidableEq, Repr

/-- An exception instance: its class and its message. -/
structure Exc where
  kind : ExcKind
  msg : String
deriving DecidableEq, Repr

/-- A decoded notification (`Notify(be_pid, relname, extra)`). -/
structure Notify where
  be_pid : Nat
  relname : String
  extra : String
deriving DecidableEq, Repr

/-- The mutable attributes of a `Connection` object that the connection
state machine reads or writes.  Field names follow the Python attributes.
`_cancel` and `_pgconn` model whether the cancel token and the transport
handle are held (non-NULL).  `_tpc_xid` holds the serialized form of the
attached two-phase identifier (the `Xid` class lives outside this file's
sources, so the identifier is kept as its string).  `_async_cursor`
models the weakref to a pending async cursor: `none` when unset,
`some alive` when set, with `alive` telling whether the referent is
still there when dereferenced. -/
structure Conn where
  status : Status
  _closed : Bool
  _cancel : Bool
  _pgconn : Bool
  _autocommit : Bool
  _tpc_xid : Option String
  _mark : Nat
  notices : List String
  _notifies : List Notify
  _async : Bool
  _async_status : AsyncStatus
  _async_cursor : Option Bool
  _equote : Bool
  _encoding : Option String
deriving DecidableEq, Repr

/-- Oracle answers of the libpq transport, fixed for the duration of one
modelled call.  Functions of a command string model calls whose outcome
depends on the command sent. -/
structure Env where
  /-- `PQstatus(pgconn) == CONNECTION_BAD`. -/
  connBad : Bool
  /-- `PQexec` returned NULL for this command. -/
  execNull : String → Bool
  /-- `PQresultStatus` of the `PQexec` result is `PGRES_COMMAND_OK`. -/
  execOk : String → Bool
  /-- the `SHOW` query of `_get_guc` returned `PGRES_TUPLES_OK`. -/
  showOk : Bool
  /-- `PQconsumeInput` returned non-zero. -/
  consumeInputOk : Bool
  /-- `PQisBusy` result. -/
  isBusy : Nat
  /-- `PQflush` result. -/
  flush : Int
  /-- notifications pending in the transport, drained by `_is_busy`. -/
  pendingNotifies : List Notify
  /-- `PQgetCancel` returned a non-NULL token. -/
  getCancelOk : Bool
  /-- `PQparameterStatus(pgconn, DateStyle)`. -/
  datestyle : String
  /-- `PQsendQuery` returned non-zero for this query. -/
  sendQueryOk : String → Bool
  /-- negotiated client encoding (already normalized; the encodings
  module is outside this file's sources). -/
  clientEncoding : String
  /-- `standard_conforming_strings` is off (`_get_equote`). -/
  equote : Bool
  /-- `PQerrorMessage(pgconn)`. -/
  errorMessage : String
  /-- `PQresultErrorMessage(pgres)` of the failing result, when one
  exists. -/
  resultErrorMsg : Option String
  /-- the `PG_DIAG_SQLSTATE` field of the failing result, when set. -/
  sqlstate : Option String
  /-- `util.get_exception_for_sqlstate` (the util module is outside this
  file's sources, so the classification map is an oracle). -/
  sqlstateKind : String → ExcKind
  /-- `util.quote_string` (outside this file's sources). -/
  quote_string : String → String
  /-- `PQconnectdb` / `PQconnectStart` returned a handle. -/
  connectOk : Bool
  /-- `PQconnectPoll` result. -/
  connectPoll : PollingStatus
  /-- `util.pq_get_last_result` gave a result with `PGRES_COMMAND_OK`
  (datestyle setup check). -/
  lastResultCommandOk : Bool

/-- The state threaded through a modelled call: the connection object, the
server-side parameter store (`guc name` is the value the server holds for
the session parameter `name`), and the trace of command strings sent to
the transport. -/
structure PgState where
  conn : Conn
  guc : String → String
  sent : List String

/-- The result of a modelled Python call: `error` is a raised exception
together with the state as mutated before the raise. -/
abbrev PgResult (α : Type) := Except (Exc × PgState) (α × PgState)

/-- Record a command string handed to the transport. -/
def sendCmd (s : PgState) (cmd : String) : PgState :=
  { s with sent := s.sent ++ [cmd] }

/-- Python `str.lower()` for the ASCII strings the connection code
lower-cases (GUC values and option names). -/
def pyLower (s : String) : String :=
  String.mk (s.data.map (fun c =>
    if 65 ≤ c.toNat && c.toNat ≤ 90 then Char.ofNat (c.toNat + 32) else c))

/-- Python `str.startswith(pre)`. -/
def startswith (s pre : String) : Bool :=
  List.isPrefixOf pre.data s.data

namespace Connection

/-- `Connection._close`: set `_closed`, free the cancel token if held,
free the transport handle if held. -/
def _close (c : Conn) : Conn :=
  let c := { c with _closed := true }
  let c := if c._cancel then { c with _cancel := false } else c
  if c._pgconn then { c with _pgconn := false } else c

/-- The `closed` property: `self._closed or PQstatus(pgconn) ==
CONNECTION_BAD`. -/
def closed (env : Env) (c : Conn) : Bool :=
  c._closed || env.connBad

/-- `Connection._create_exception`: pick the message, classify the
exception from the SQLSTATE when a failed result is available, and close
the connection when the transport reports `CONNECTION_BAD`.  `hasPgres`
tells whether a failed result object was passed. -/
def _create_exception (env : Env) (hasPgres : Bool) (msg : Option String)
    (s : PgState) : Exc × PgState :=
  let m : String :=
    match msg with
    | some m => m
    | none =>
      match (if hasPgres then env.resultErrorMsg else none) with
      | some m => m
      | none => env.errorMessage
  let kind : ExcKind :=
    if hasPgres then
      match env.sqlstate with
      | some code => env.sqlstateKind code
      | none => ExcKind.operationalError
    else ExcKind.operationalError
  let s' :=
    if s.conn._pgconn && env.connBad then
      { s with conn := _close s.conn }
    else s
  (⟨kind, m⟩, s')

/-- `Connection._execute_command` (the `_green_callback` branch is dead:
the module-level hook is `None`). -/
def _execute_command (env : Env) (command : String) (s : PgState) :
    PgResult Unit :=
  let s := sendCmd s command
  if env.execNull command then
    Except.error (_create_exception env false none s)
  else if env.execOk command then
    Except.ok ((), s)
  else
    Except.error (_create_exception env true none s)

/-- `Connection._process_notice`: append the message and delete the
oldest entries so that no more than 50 remain. -/
def _process_notice (notices : List String) (message : String) :
    List String :=
  let l := notices ++ [message]
  let length := l.length
  if length > 50 then l.drop (length - 50) else l

/-- `Connection._get_guc`: issue `SHOW name`; on a `PGRES_TUPLES_OK`
result return the value (in the model, the value the server store holds);
otherwise raise OperationalError. -/
def _get_guc (env : Env) (name : String) (s : PgState) : PgResult String :=
  let s := sendCmd s ("SHOW " ++ name)
  if env.showOk then Except.ok (s.guc name, s)
  else Except.error (⟨ExcKind.operationalError, "cannot fetch " ++ name⟩, s)

/-- `Connection._set_guc`: quote the value unless it is the literal
`default`, issue `SET name TO value`; on success the server store holds
the new value. -/
def _set_guc (env : Env) (name value : String) (s : PgState) :
    PgResult Unit :=
  let wire := if pyLower value = "default" then value
              else env.quote_string value
  match _execute_command env ("SET " ++ name ++ " TO " ++ wire) s with
  | Except.ok (_, s') =>
    Except.ok ((), { s' with guc := fun n => if n = name then value else s'.guc n })
  | Except.error e => Except.error e

/-- `Connection._set_guc_onoff`: a string equal (case-insensitively) to
`default` passes through; any other value is coerced by truthiness to
`on` / `off`. -/
def _set_guc_onoff (env : Env) (name : String) (value : Sum Bool String)
    (s : PgState) : PgResult Unit :=
  let v : String :=
    match value with
    | Sum.inr str =>
      if pyLower str = "default" then "default"
      else if str ≠ "" then "on" else "off"
    | Sum.inl b => if b then "on" else "off"
  _set_guc env name v s

end Connection

/-- The `_isolevels` map, name-to-level direction (`consts`
`ISOLATION_LEVEL_AUTOCOMMIT = 0` through `ISOLATION_LEVEL_SERIALIZABLE =
4`; `default` maps to `-1`). -/
def isolevel_of_name (name : String) : Option Int :=
  if name = "" then some 0
  else if name = "read uncommitted" then some 1
  else if name = "read committed" then some 2
  else if name = "repeatable read" then some 3
  else if name = "serializable" then some 4
  else if name = "default" then some (-1)
  else none

/-- The `_isolevels` map, level-to-name direction (added by the module
inversion loop). -/
def name_of_isolevel (level : Int) : Option String :=
  if level = 0 then some ""
  else if level = 1 then some "read uncommitted"
  else if level = 2 then some "read committed"
  else if level = 3 then some "repeatable read"
  else if level = 4 then some "serializable"
  else if level = -1 then some "default"
  else none

namespace Connection

/-- The `isolation_level` property getter (`@check_closed`): autocommit
reports level 0 without touching the server; otherwise read the
`default_transaction_isolation` parameter and map its lower-cased name
through `_isolevels` (an unknown name is a Python KeyError). -/
def isolation_level (env : Env) (s : PgState) : PgResult Int :=
  if closed env s.conn then
    Except.error (⟨ExcKind.interfaceError, "connection already closed"⟩, s)
  else if s.conn._autocommit then Except.ok (0, s)
  else
    match _get_guc env "default_transaction_isolation" s with
    | Except.error e => Except.error e
    | Except.ok (name, s') =>
      match isolevel_of_name (pyLower name) with
      | some l => Except.ok (l, s')
      | none => Except.error (⟨ExcKind.keyError, name⟩, s')

/-- `Connection.set_session` (`@check_closed`, `@check_notrans`):
apply the provided options through the GUC layer; `autocommit` is applied
last and purely locally.  The isolation level may be given as an integer
1..4 or as a name; other Python types (the TypeError branch) are outside
the model. -/
def set_session (env : Env) (isolation_level : Option (Sum Int String))
    (readonly deferrable : Option (Sum Bool String))
    (autocommit : Option Bool) (s : PgState) : PgResult Unit :=
  if closed env s.conn then
    Except.error (⟨ExcKind.interfaceError, "connection already closed"⟩, s)
  else if s.conn.status ≠ Status.ready then
    Except.error (⟨ExcKind.programmingError, "not valid in transaction"⟩, s)
  else
    let step1 : PgResult Unit :=
      match isolation_level with
      | none => Except.ok ((), s)
      | some (Sum.inl lvl) =>
        if lvl < 1 || lvl > 4 then
          Except.error
            (⟨ExcKind.valueError, "isolation level must be between 1 and 4"⟩, s)
        else
          match name_of_isolevel lvl with
          | some nm => _set_guc env "default_transaction_isolation" nm s
          | none => Except.error (⟨ExcKind.keyError, ""⟩, s)
      | some (Sum.inr nm) =>
        if nm = "" || (isolevel_of_name (pyLower nm)).isNone then
          Except.error
            (⟨ExcKind.valueError, "bad value for isolation level"⟩, s)
        else _set_guc env "default_transaction_isolation" nm s
    match step1 with
    | Except.error e => Except.error e
    | Except.ok (_, s1) =>
      let step2 : PgResult Unit :=
        match readonly with
        | none => Except.ok ((), s1)
        | some v => _set_guc_onoff env "default_transaction_read_only" v s1
      match step2 with
      | Except.error e => Except.error e
      | Except.ok (_, s2) =>
        let step3 : PgResult Unit :=
          match deferrable with
          | none => Except.ok ((), s2)
          | some v => _set_guc_onoff env "default_transaction_deferrable" v s2
        match step3 with
        | Except.error e => Except.error e
        | Except.ok (_, s3) =>
          match autocommit with
          | none => Except.ok ((), s3)
          | some b =>
            Except.ok ((), { s3 with conn := { s3.conn with _autocommit := b } })

/-- `Connection._begin_transaction`: only from READY with autocommit off,
send `BEGIN` and move to BEGIN. -/
def _begin_transaction (env : Env) (s : PgState) : PgResult Unit :=
  if s.conn.status = Status.ready && !s.conn._autocommit then
    match _execute_command env "BEGIN" s with
    | Except.error e => Except.error e
    | Except.ok (_, s') =>
      Except.ok ((), { s' with conn := { s'.conn with status := Status.begin_ } })
  else Except.ok ((), s)

/-- `Connection._commit`: no-op unless in BEGIN with autocommit off;
otherwise bump `_mark`, send `COMMIT`, and restore status READY in a
`finally` block (so also on a raise). -/
def _commit (env : Env) (s : PgState) : PgResult Unit :=
  if s.conn._autocommit || s.conn.status ≠ Status.begin_ then
    Except.ok ((), s)
  else
    let s1 := { s with conn := { s.conn with _mark := s.conn._mark + 1 } }
    match _execute_command env "COMMIT" s1 with
    | Except.ok (_, s2) =>
      Except.ok ((), { s2 with conn := { s2.conn with status := Status.ready } })
    | Except.error (e, s2) =>
      Except.error (e, { s2 with conn := { s2.conn with status := Status.ready } })

/-- `Connection._rollback`: no-op unless in BEGIN with autocommit off;
otherwise bump `_mark`, send `ROLLBACK`, and set status READY only after
the command returns (a raise skips the status assignment). -/
def _rollback (env : Env) (s : PgState) : PgResult Unit :=
  if s.conn._autocommit || s.conn.status ≠ Status.begin_ then
    Except.ok ((), s)
  else
    let s1 := { s with conn := { s.conn with _mark := s.conn._mark + 1 } }
    match _execute_command env "ROLLBACK" s1 with
    | Except.ok (_, s2) =>
      Except.ok ((), { s2 with conn := { s2.conn with status := Status.ready } })
    | Except.error e => Except.error e

/-- `Connection.commit` (`@check_closed`, `@check_async`, `@check_tpc`). -/
def commit (env : Env) (s : PgState) : PgResult Unit :=
  if closed env s.conn then
    Except.error (⟨ExcKind.interfaceError, "connection already closed"⟩, s)
  else if s.conn._async then
    Except.error
      (⟨ExcKind.programmingError, "commit cannot be used in asynchronous mode"⟩, s)
  else if (s.conn._tpc_xid).isSome then
    Except.error
      (⟨ExcKind.programmingError,
        "commit cannot be used during a two-phase transaction"⟩, s)
  else _commit env s

/-- `Connection.rollback` (`@check_closed`, `@check_async`, `@check_tpc`). -/
def rollback (env : Env) (s : PgState) : PgResult Unit :=
  if closed env s.conn then
    Except.error (⟨ExcKind.interfaceError, "connection already closed"⟩, s)
  else if s.conn._async then
    Except.error
      (⟨ExcKind.programmingError,
        "rollback cannot be used in asynchronous mode"⟩, s)
  else if (s.conn._tpc_xid).isSome then
    Except.error
      (⟨ExcKind.programmingError,
        "rollback cannot be used during a two-phase transaction"⟩, s)
  else _rollback env s

/-- `Connection.close` (`@check_closed`): raises on an already-closed
connection, otherwise runs `_close`. -/
def close (env : Env) (s : PgState) : PgResult Unit :=
  if closed env s.conn then
    Except.error (⟨ExcKind.interfaceError, "connection already closed"⟩, s)
  else Except.ok ((), { s with conn := _close s.conn })

/-- `Connection.set_isolation_level` (`@check_async`): range-check the
level, read the current level (a GUC read unless autocommit), return
early when unchanged, otherwise roll back and re-apply session defaults
(level 0 turns autocommit on; 1..4 set the GUC and turn autocommit
off). -/
def set_isolation_level (env : Env) (level : Int) (s : PgState) :
    PgResult Unit :=
  if s.conn._async then
    Except.error
      (⟨ExcKind.programmingError,
        "set_isolation_level cannot be used in asynchronous mode"⟩, s)
  else if level < 0 || level > 4 then
    Except.error
      (⟨ExcKind.valueError, "isolation level must be between 0 and 4"⟩, s)
  else
    match isolation_level env s with
    | Except.error e => Except.error e
    | Except.ok (prev, s1) =>
      if prev = level then Except.ok ((), s1)
      else
        match _rollback env s1 with
        | Except.error e => Except.error e
        | Except.ok (_, s2) =>
          if level = 0 then set_session env none none none (some true) s2
          else set_session env (some (Sum.inl level)) none none (some false) s2

/-- `Connection._execute_tpc_command`: build `command quoted-xid`, run it,
and bump `_mark` on success. -/
def _execute_tpc_command (env : Env) (command : String) (xid : String)
    (s : PgState) : PgResult Unit :=
  let cmd := command ++ " " ++ env.quote_string xid
  match _execute_command env cmd s with
  | Except.ok (_, s') =>
    Except.ok ((), { s' with conn := { s'.conn with _mark := s'.conn._mark + 1 } })
  | Except.error e => Except.error e

/-- `Connection.tpc_begin` (`@check_closed`, `@check_async`): reject a
status other than READY and reject autocommit, then issue the implicit
BEGIN and record the identifier.  (The code performs no check of a
previously attached `_tpc_xid`.) -/
def tpc_begin (env : Env) (xid : String) (s : PgState) : PgResult Unit :=
  if closed env s.conn then
    Except.error (⟨ExcKind.interfaceError, "connection already closed"⟩, s)
  else if s.conn._async then
    Except.error
      (⟨ExcKind.programmingError,
        "tpc_begin cannot be used in asynchronous mode"⟩, s)
  else if s.conn.status ≠ Status.ready then
    Except.error
      (⟨ExcKind.programmingError,
        "tpc_begin must be called outside a transaction"⟩, s)
  else if s.conn._autocommit then
    Except.error
      (⟨ExcKind.programmingError,
        "tpc_begin cannot be called in autocommit mode"⟩, s)
  else
    match _begin_transaction env s with
    | Except.error e => Except.error e
    | Except.ok (_, s') =>
      Except.ok ((), { s' with conn := { s'.conn with _tpc_xid := some xid } })

/-- `Connection._finish_tpc`: with an explicit identifier, require READY
and run the PREPARED variant directly; with no identifier, require an
attached identifier, fall back to plain commit/rollback from BEGIN, run
the PREPARED variant from PREPARED, raise InterfaceError from any other
status, and only after a non-raising branch reset status to READY and
clear the identifier. -/
def _finish_tpc (env : Env) (command : String)
    (fallback : PgState → PgResult Unit) (xid : Option String)
    (s : PgState) : PgResult Unit :=
  match xid with
  | some x =>
    if s.conn.status ≠ Status.ready then
      Except.error
        (⟨ExcKind.programmingError,
          "tpc_commit/tpc_rollback with a xid must be called outside a transaction"⟩,
         s)
    else _execute_tpc_command env command x s
  | none =>
    match s.conn._tpc_xid with
    | none =>
      Except.error
        (⟨ExcKind.programmingError,
          "tpc_commit/tpc_rollback with no parameter must be called in a two-phase transaction"⟩,
         s)
    | some x =>
      let step : PgResult Unit :=
        if s.conn.status = Status.begin_ then fallback s
        else if s.conn.status = Status.prepared then
          _execute_tpc_command env command x s
        else
          Except.error
            (⟨ExcKind.interfaceError,
              "unexpected state in tpc_commit/tpc_rollback"⟩, s)
      match step with
      | Except.ok (_, s') =>
        Except.ok ((),
          { s' with conn :=
            { s'.conn with status := Status.ready, _tpc_xid := none } })
      | Except.error e => Except.error e

/-- `Connection.tpc_commit` (`@check_closed`, `@check_async`). -/
def tpc_commit (env : Env) (xid : Option String) (s : PgState) :
    PgResult Unit :=
  if closed env s.conn then
    Except.error (⟨ExcKind.interfaceError, "connection already closed"⟩, s)
  else if s.conn._async then
    Except.error
      (⟨ExcKind.programmingError,
        "tpc_commit cannot be used in asynchronous mode"⟩, s)
  else _finish_tpc env "COMMIT PREPARED" (_commit env) xid s

/-- `Connection.tpc_rollback` (`@check_closed`, `@check_async`). -/
def tpc_rollback (env : Env) (xid : Option String) (s : PgState) :
    PgResult Unit :=
  if closed env s.conn then
    Except.error (⟨ExcKind.interfaceError, "connection already closed"⟩, s)
  else if s.conn._async then
    Except.error
      (⟨ExcKind.programmingError,
        "tpc_rollback cannot be used in asynchronous mode"⟩, s)
  else _finish_tpc env "ROLLBACK PREPARED" (_rollback env) xid s

/-- `Connection.tpc_prepare` (`@check_closed`, `@check_async`). -/
def tpc_prepare (env : Env) (s : PgState) : PgResult Unit :=
  if closed env s.conn then
    Except.error (⟨ExcKind.interfaceError, "connection already closed"⟩, s)
  else if s.conn._async then
    Except.error
      (⟨ExcKind.programmingError,
        "tpc_prepare cannot be used in asynchronous mode"⟩, s)
  else
    match s.conn._tpc_xid with
    | none =>
      Except.error
        (⟨ExcKind.programmingError,
          "prepare must be called inside a two-phase transaction"⟩, s)
    | some x =>
      match _execute_tpc_command env "PREPARE TRANSACTION" x s with
      | Except.error e => Except.error e
      | Except.ok (_, s') =>
        Except.ok ((),
          { s' with conn := { s'.conn with status := Status.prepared } })

/-- `Connection._is_busy`: consume input (raising OperationalError on
failure), read `PQisBusy`, and drain pending notifications into
`_notifies`. -/
def _is_busy (env : Env) (s : PgState) :
    Except (Exc × PgState) (Nat × PgState) :=
  if !env.consumeInputOk then
    Except.error (⟨ExcKind.operationalError, env.errorMessage⟩, s)
  else
    let s' := { s with conn :=
      { s.conn with _notifies := s.conn._notifies ++ env.pendingNotifies } }
    Except.ok (env.isBusy, s')

/-- `Connection._poll_advance_write`: map the `PQflush` result. -/
def _poll_advance_write (env : Env) (flush : Int) (s : PgState) :
    PgResult Poll :=
  if flush = 0 then
    Except.ok (Poll.read,
      { s with conn := { s.conn with _async_status := AsyncStatus.read } })
  else if flush = 1 then Except.ok (Poll.write, s)
  else if flush = -1 then
    Except.error (_create_exception env false none s)
  else Except.ok (Poll.err, s)

/-- `Connection._poll_advance_read`: map the busy flag. -/
def _poll_advance_read (busy : Nat) (s : PgState) : Poll × PgState :=
  if busy = 0 then
    (Poll.ok,
     { s with conn := { s.conn with _async_status := AsyncStatus.done } })
  else if busy = 1 then (Poll.read, s)
  else (Poll.err, s)

/-- `Connection._poll_query`: advance the async sub-state (the READ
branch of the source is the same for async and sync mode; the final
`else` of the source is unreachable with the three-valued enum). -/
def _poll_query (env : Env) (s : PgState) : PgResult Poll :=
  match s.conn._async_status with
  | AsyncStatus.write => _poll_advance_write env env.flush s
  | AsyncStatus.read =>
    match _is_busy env s with
    | Except.error e => Except.error e
    | Except.ok (busy, s') => Except.ok (_poll_advance_read busy s')
  | AsyncStatus.done =>
    match _is_busy env s with
    | Except.error e => Except.error e
    | Except.ok (busy, s') => Except.ok (_poll_advance_read busy s')

/-- `Connection._poll_connecting`: map `PQconnectPoll` through the status
map; FAILED and ACTIVE map to POLL_ERROR, which raises. -/
def _poll_connecting (env : Env) (s : PgState) : PgResult Poll :=
  match env.connectPoll with
  | PollingStatus.ok => Except.ok (Poll.ok, s)
  | PollingStatus.reading => Except.ok (Poll.read, s)
  | PollingStatus.writing => Except.ok (Poll.write, s)
  | PollingStatus.failed => Except.error (_create_exception env false none s)
  | PollingStatus.active => Except.error (_create_exception env false none s)

/-- `Connection._poll_setup_async`: from CONNECTING, cache equote and
encoding, obtain the cancel token (raising on failure), switch autocommit
on, and either go straight to READY (ISO datestyle) or send the datestyle
command and enter DATESTYLE; from DATESTYLE, finish the round trip and
go to READY.  The cursor-free `SET DATESTYLE` string follows the source
(there it carries quotes around ISO). -/
def _poll_setup_async (env : Env) (s : PgState) : PgResult Poll :=
  if s.conn.status = Status.connecting then
    let c1 := { s.conn with _equote := env.equote,
                            _encoding := some env.clientEncoding }
    if !env.getCancelOk then
      Except.error
        (⟨ExcKind.operationalError, "cannot get cancellation key"⟩,
         { s with conn := c1 })
    else
      let c2 := { c1 with _cancel := true, _autocommit := true }
      if env.datestyle = "" || !(startswith env.datestyle "ISO") then
        let c3 := { c2 with status := Status.datestyle }
        if env.sendQueryOk "SET DATESTYLE TO ISO" then
          Except.ok (Poll.write,
            { s with conn := { c3 with _async_status := AsyncStatus.write } })
        else
          Except.error (_create_exception env false none { s with conn := c3 })
      else
        Except.ok (Poll.ok, { s with conn := { c2 with status := Status.ready } })
  else if s.conn.status = Status.datestyle then
    match _poll_query env s with
    | Except.error e => Except.error e
    | Except.ok (res, s') =>
      if res ≠ Poll.ok then Except.ok (res, s')
      else if env.lastResultCommandOk then
        Except.ok (Poll.ok,
          { s' with conn := { s'.conn with status := Status.ready } })
      else
        Except.error
          (⟨ExcKind.operationalError, "cannot set datestyle to ISO"⟩, s')
  else Except.ok (Poll.err, s)

/-- `Connection.poll`: dispatch on status; from READY/BEGIN/PREPARED an OK
result on an async connection with a pending cursor delivers the result
to the cursor (raising InterfaceError when the weak referent is gone; the
fetch itself is cursor code outside these sources and is modelled as
clearing the association). -/
def poll (env : Env) (s : PgState) : PgResult Poll :=
  if s.conn.status = Status.setup then
    Except.ok (Poll.write,
      { s with conn := { s.conn with status := Status.connecting } })
  else if s.conn.status = Status.connecting then
    match _poll_connecting env s with
    | Except.error e => Except.error e
    | Except.ok (res, s') =>
      if res = Poll.ok && s'.conn._async then _poll_setup_async env s'
      else Except.ok (res, s')
  else if s.conn.status = Status.ready || s.conn.status = Status.begin_
       || s.conn.status = Status.prepared then
    match _poll_query env s with
    | Except.error e => Except.error e
    | Except.ok (res, s') =>
      match s'.conn._async_cursor with
      | some alive =>
        if res = Poll.ok && s'.conn._async then
          if alive then
            Except.ok (res,
              { s' with conn := { s'.conn with _async_cursor := none } })
          else
            Except.error
              (⟨ExcKind.interfaceError,
                "the asynchronous cursor has disappeared"⟩, s')
        else Except.ok (res, s')
      | none => Except.ok (res, s')
  else Except.ok (Poll.err, s)

/-- `Connection._setup` (sync post-connect): cache equote and encoding,
obtain the cancel token (raising on failure), force the datestyle to ISO
when not already ISO (moving to DATESTYLE), and clear `_closed`. -/
def _setup (env : Env) (s : PgState) : PgResult Unit :=
  let c1 := { s.conn with _equote := env.equote,
                          _encoding := some env.clientEncoding }
  if !env.getCancelOk then
    Except.error
      (⟨ExcKind.operationalError, "cannot get cancellation key"⟩,
       { s with conn := c1 })
  else
    let c2 := { c1 with _cancel := true }
    if env.datestyle = "" || !(startswith env.datestyle "ISO") then
      let s3 := { s with conn := { c2 with status := Status.datestyle } }
      match _set_guc env "datestyle" "ISO" s3 with
      | Except.error e => Except.error e
      | Except.ok (_, s4) =>
        Except.ok ((), { s4 with conn := { s4.conn with _closed := false } })
    else
      Except.ok ((), { s with conn := { c2 with _closed := false } })

end Connection

/-- The attribute initialization performed by `Connection.__init__`
before the connect call (the fields of the Python object after the
assignment block). -/
def Connection.init (async : Bool) : Conn :=
  { status := Status.setup
    _closed := false
    _cancel := false
    _pgconn := false
    _autocommit := false
    _tpc_xid := none
    _mark := 0
    notices := []
    _notifies := []
    _async := async
    _async_status := AsyncStatus.done
    _async_cursor := none
    _equote := false
    _encoding := none }

namespace Connection

/-- `Connection._connect_sync`: obtain a handle via `PQconnectdb`
(raising OperationalError on NULL, raising via `_create_exception` on a
BAD status), set status READY, and run `_setup`. -/
def _connect_sync (env : Env) (s : PgState) : PgResult Unit :=
  if !env.connectOk then
    Except.error (⟨ExcKind.operationalError, "PQconnectdb failed"⟩, s)
  else
    let s1 := { s with conn := { s.conn with _pgconn := true } }
    if env.connBad then
      Except.error (_create_exception env false none s1)
    else
      _setup env { s1 with conn := { s1.conn with status := Status.ready } }

/-- `Connection._connect_async`: obtain a handle via `PQconnectStart`;
the rest of the setup is left to `poll`. -/
def _connect_async (env : Env) (s : PgState) : PgResult Unit :=
  if !env.connectOk then
    Except.error (⟨ExcKind.operationalError, "PQconnectStart failed"⟩, s)
  else
    let s1 := { s with conn := { s.conn with _pgconn := true } }
    if env.connBad then
      Except.error (_create_exception env false none s1)
    else Except.ok ((), s1)

end Connection

/-! ### Concrete fixtures for evaluating the model -/

/-- A transport where every call succeeds and the connection is healthy. -/
def env0 : Env :=
  { connBad := false
    execNull := fun _ => false
    execOk := fun _ => true
    showOk := true
    consumeInputOk := true
    isBusy := 0
    flush := 0
    pendingNotifies := []
    getCancelOk := true
    datestyle := "ISO, DMY"
    sendQueryOk := fun _ => true
    clientEncoding := "UTF8"
    equote := false
    errorMessage := "server error"
    resultErrorMsg := some "result error"
    sqlstate := none
    sqlstateKind := fun _ => ExcKind.databaseError
    quote_string := fun x => x
    connectOk := true
    connectPoll := PollingStatus.ok
    lastResultCommandOk := true }

/-- The default server parameter store used by the fixtures. -/
def guc0 : String → String :=
  fun n => if n = "default_transaction_isolation" then "read committed" else ""

/-- An established, idle synchronous connection. -/
def sReady : PgState :=
  { conn := { Connection.init false with
               status := Status.ready, _pgconn := true, _cancel := true }
    guc := guc0
    sent := [] }

/-- `sReady` after an explicit `close()`. -/
def sClosed : PgState :=
  { sReady with conn := { sReady.conn with
      _closed := true, _cancel := false, _pgconn := false } }

/-- An established connection inside an explicit transaction block. -/
def sBegin : PgState :=
  { sReady with conn := { sReady.conn with status := Status.begin_ } }

/-- A connection whose own two-phase identifier is still attached while
the status is READY.  This state is reachable: from BEGIN with an
attached identifier, a `tpc_commit()` whose internal `COMMIT` command
fails leaves status READY (the `finally` in `_commit`) but propagates the
exception out of `_finish_tpc` before the identifier is cleared. -/
def sTpcReady : PgState :=
  { sReady with conn := { sReady.conn with _tpc_xid := some "tx" } }

/-- An async connection being driven through its post-connect setup. -/
def sConnecting : PgState :=
  { conn := { Connection.init true with
               status := Status.connecting, _pgconn := true }
    guc := guc0
    sent := [] }


/-- `sConnecting` once `_poll_setup_async` finished (ISO datestyle). -/
def sConnected : PgState :=
  { sConnecting with conn := { sConnecting.conn with
      status := Status.ready, _cancel := true, _autocommit := true,
      _encoding := some "UTF8" } }

/-- `sTpcReady` with the transaction prepared on the server. -/
def sTpcPrepared : PgState :=
  { sTpcReady with conn := { sTpcReady.conn with status := Status.prepared } }

/-- Abbreviation for the state `set_session(isolation_level=L,
autocommit=False)` produces from `B`, with `nm` the name of level `L`:
autocommit off, the server store updated, one SET command traced. -/
def afterSetIso (env : Env) (B : PgState) (nm : String) : PgState :=
  { B with
    conn := { B.conn with _autocommit := false },
    guc := fun n => if n = "default_transaction_isolation" then nm
                    else B.guc n,
    sent := B.sent ++ ["SET " ++ "default_transaction_isolation" ++ " TO "
      ++ (if pyLower nm = "default" then nm else env.quote_string nm)] }

/-! ### Helper lemmas -/

/-- Folding the notice collector from any buffer of at most 50 entries
keeps exactly the tail of the combined stream. -/
theorem process_notice_foldl (msgs : List String) :
    ∀ acc : List String, acc.length ≤ 50 →
      List.foldl Connection._process_notice acc msgs
        = (acc ++ msgs).drop (acc.length + msgs.length - 50) := by
  induction msgs with
  | nil =>
    intro acc h
    simp [Nat.sub_eq_zero_of_le, h]
  | cons m rest ih =>
    intro acc h
    rw [List.foldl_cons]
    by_cases hfull : acc.length = 50
    · have hstep : Connection._process_notice acc m = (acc ++ [m]).drop 1 := by
        simp [Connection._process_notice, hfull]
      rw [hstep, ih _ (by simp [hfull])]
      have hlen : ((acc ++ [m]).drop 1).length = 50 := by
        simp [hfull]
      rw [hlen]
      have h1 : (1 : Nat) ≤ (acc ++ [m]).length := by simp
      have hsplit : (acc ++ m :: rest) = (acc ++ [m]) ++ rest := by simp
      rw [hsplit]
      have hdrop : ((acc ++ [m]) ++ rest).drop (acc.length + (rest.length + 1) - 50)
          = (((acc ++ [m]).drop 1) ++ rest).drop (50 + rest.length - 50) := by
        have harith : acc.length + (rest.length + 1) - 50 = 1 + rest.length := by
          omega
        rw [harith, ← List.drop_drop, List.drop_append_of_le_length h1]
        congr 1
        omega
      simp only [List.length_cons]
      exact hdrop.symm
    · have hlt : acc.length + 1 ≤ 50 := by omega
      have hstep : Connection._process_notice acc m = acc ++ [m] := by
        simp [Connection._process_notice]
        omega
      rw [hstep, ih _ (by simp; omega)]
      simp
      congr 1
      omega

/-! ### Claim theorems -/

/-- C5: for every sequence of server notice callbacks starting from the
empty buffer, the buffer holds exactly the most recent `min(n, 50)`
notices in arrival order (the tail of the stream), so it never exceeds 50
entries; in particular after 60 sequential notices it holds exactly
notices 11 through 60. -/
theorem notices_keep_last_fifty :
    (∀ msgs : List String,
      List.foldl Connection._process_notice [] msgs
        = msgs.drop (msgs.length - 50)) ∧
    (∀ msgs : List String,
      (List.foldl Connection._process_notice [] msgs).length
        = min msgs.length 50) ∧
    (List.foldl Connection._process_notice []
        ((List.range 60).map (fun i => "notice " ++ Nat.repr (i + 1)))
      = ((List.range 60).map (fun i => "notice " ++ Nat.repr (i + 1))).drop 10) := by
  have key : ∀ msgs : List String,
      List.foldl Connection._process_notice [] msgs
        = msgs.drop (msgs.length - 50) := by
    intro msgs
    have h := process_notice_foldl msgs [] (by simp)
    simpa using h
  refine ⟨key, ?_, ?_⟩
  · intro msgs
    rw [key, List.length_drop]
    omega
  · rw [key]
    simp

/-- C8: whenever `_create_exception` runs while a transport handle is
held and the transport reports CONNECTION_BAD, the state delivered with
the exception already has the connection closed: `_closed` set, the
cancel token and the transport handle released, and the `closed` property
true. -/
theorem create_exception_closes_bad_connection (env : Env)
    (hasPgres : Bool) (msg : Option String) (s : PgState)
    (hpg : s.conn._pgconn = true) (hbad : env.connBad = true) :
    ((Connection._create_exception env hasPgres msg s).2.conn._closed = true)
    ∧ ((Connection._create_exception env hasPgres msg s).2.conn._cancel = false)
    ∧ ((Connection._create_exception env hasPgres msg s).2.conn._pgconn = false)
    ∧ (Connection.closed env
        (Connection._create_exception env hasPgres msg s).2.conn = true) := by
  simp only [Connection._create_exception, Connection._close, Connection.closed,
    hpg, hbad, Bool.and_true, Bool.true_and, if_true]
  split <;> simp_all

/-- Witness for C8 at a concrete broken transport. -/
theorem create_exception_closes_bad_connection_witness :
    ((Connection._create_exception { env0 with connBad := true } false none
        sReady).2.conn._closed = true)
    ∧ ((Connection._create_exception { env0 with connBad := true } false none
        sReady).2.conn._cancel = false)
    ∧ ((Connection._create_exception { env0 with connBad := true } false none
        sReady).2.conn._pgconn = false)
    ∧ (Connection.closed { env0 with connBad := true }
        (Connection._create_exception { env0 with connBad := true } false none
          sReady).2.conn = true) :=
  create_exception_closes_bad_connection { env0 with connBad := true }
    false none sReady rfl rfl

/-- C10: with autocommit off and status BEGIN, a `commit()` whose COMMIT
command fails still delivers a state with `_mark` incremented and status
READY (the transition lands in the `finally` before the error
propagates), while a `rollback()` whose ROLLBACK command fails delivers a
state with `_mark` incremented and status still BEGIN. -/
theorem commit_rollback_failure_paths (env : Env) (s : PgState)
    (hcl : s.conn._closed = false) (hbad : env.connBad = false)
    (hasync : s.conn._async = false) (htpc : s.conn._tpc_xid = none)
    (hac : s.conn._autocommit = false) (hst : s.conn.status = Status.begin_)
    (hnc : env.execNull "COMMIT" = false) (hfc : env.execOk "COMMIT" = false)
    (hnr : env.execNull "ROLLBACK" = false)
    (hfr : env.execOk "ROLLBACK" = false) :
    (match Connection.commit env s with
     | Except.error (_, s') =>
       s'.conn._mark = s.conn._mark + 1 ∧ s'.conn.status = Status.ready
     | Except.ok _ => False)
    ∧ (match Connection.rollback env s with
     | Except.error (_, s') =>
       s'.conn._mark = s.conn._mark + 1 ∧ s'.conn.status = Status.begin_
     | Except.ok _ => False) := by
  constructor
  · simp [Connection.commit, Connection.closed, hcl, hbad, hasync, htpc,
      Connection._commit, hac, hst, Connection._execute_command, sendCmd,
      hnc, hfc, Connection._create_exception]
  · simp [Connection.rollback, Connection.closed, hcl, hbad, hasync, htpc,
      Connection._rollback, hac, hst, Connection._execute_command, sendCmd,
      hnr, hfr, Connection._create_exception]

/-- Witness for C10 on a connection inside a transaction with a transport
that fails both commands. -/
theorem commit_rollback_failure_paths_witness :
    (match Connection.commit { env0 with execOk := fun _ => false } sBegin with
     | Except.error (_, s') =>
       s'.conn._mark = sBegin.conn._mark + 1 ∧ s'.conn.status = Status.ready
     | Except.ok _ => False)
    ∧ (match Connection.rollback
          { env0 with execOk := fun _ => false } sBegin with
     | Except.error (_, s') =>
       s'.conn._mark = sBegin.conn._mark + 1 ∧ s'.conn.status = Status.begin_
     | Except.ok _ => False) :=
  commit_rollback_failure_paths { env0 with execOk := fun _ => false } sBegin
    rfl rfl rfl rfl rfl rfl rfl rfl rfl rfl

/-- C1: on a usable synchronous connection outside a two-phase
transaction, `commit()` and `rollback()` are no-ops (no command sent, the
whole state — in particular `_mark` and status — unchanged) when
autocommit is on or status is not BEGIN; otherwise they send the COMMIT /
ROLLBACK command, set status to READY, and increment `_mark` by exactly
one. -/
theorem commit_rollback_spec (env : Env) (s : PgState)
    (hcl : s.conn._closed = false) (hbad : env.connBad = false)
    (hasync : s.conn._async = false) (htpc : s.conn._tpc_xid = none) :
    ((s.conn._autocommit = true ∨ s.conn.status ≠ Status.begin_) →
       Connection.commit env s = Except.ok ((), s)
       ∧ Connection.rollback env s = Except.ok ((), s))
    ∧ (s.conn._autocommit = false → s.conn.status = Status.begin_ →
       env.execNull "COMMIT" = false → env.execOk "COMMIT" = true →
       Connection.commit env s = Except.ok ((),
         { s with conn := { s.conn with _mark := s.conn._mark + 1,
                                        status := Status.ready },
                  sent := s.sent ++ ["COMMIT"] }))
    ∧ (s.conn._autocommit = false → s.conn.status = Status.begin_ →
       env.execNull "ROLLBACK" = false → env.execOk "ROLLBACK" = true →
       Connection.rollback env s = Except.ok ((),
         { s with conn := { s.conn with _mark := s.conn._mark + 1,
                                        status := Status.ready },
                  sent := s.sent ++ ["ROLLBACK"] })) := by
  refine ⟨?_, ?_, ?_⟩
  · intro h
    rcases h with h | h <;>
      exact ⟨by simp [Connection.commit, Connection.closed, hcl, hbad, hasync,
               htpc, Connection._commit, h],
             by simp [Connection.rollback, Connection.closed, hcl, hbad,
               hasync, htpc, Connection._rollback, h]⟩
  · intro hac hst hn he
    simp [Connection.commit, Connection.closed, hcl, hbad, hasync, htpc,
      Connection._commit, hac, hst, Connection._execute_command, sendCmd,
      hn, he]
  · intro hac hst hn he
    simp [Connection.rollback, Connection.closed, hcl, hbad, hasync, htpc,
      Connection._rollback, hac, hst, Connection._execute_command, sendCmd,
      hn, he]

/-- Witness for C1: a concrete commit from BEGIN sends COMMIT, moves to
READY and bumps `_mark`; a concrete commit from READY is a complete
no-op. -/
theorem commit_rollback_spec_witness :
    (Connection.commit env0 sBegin = Except.ok ((),
      { sBegin with conn := { sBegin.conn with _mark := sBegin.conn._mark + 1,
                                               status := Status.ready },
                    sent := sBegin.sent ++ ["COMMIT"] }))
    ∧ (Connection.commit env0 sReady = Except.ok ((), sReady)
       ∧ Connection.rollback env0 sReady = Except.ok ((), sReady)) :=
  ⟨(commit_rollback_spec env0 sBegin rfl rfl rfl rfl).2.1 rfl rfl rfl rfl,
   (commit_rollback_spec env0 sReady rfl rfl rfl rfl).1
     (Or.inr (by simp [sReady, Connection.init]))⟩

/-- C7: `poll()` on a connection in status READY with no outstanding
command (async sub-state DONE, transport not busy, no pending
notifications, no pending async cursor) returns OK and leaves the entire
state unchanged — so every listed observable is untouched and a repeated
call returns OK again. -/
theorem poll_ready_steady_state (env : Env) (s : PgState)
    (hst : s.conn.status = Status.ready)
    (has : s.conn._async_status = AsyncStatus.done)
    (hcur : s.conn._async_cursor = none)
    (hci : env.consumeInputOk = true) (hbusy : env.isBusy = 0)
    (hnot : env.pendingNotifies = []) :
    Connection.poll env s = Except.ok (Poll.ok, s) := by
  obtain ⟨c, g, tr⟩ := s
  obtain ⟨st, f1, f2, f3, f4, tx, mk, no, nf, ba, ast, acu, f5, en⟩ := c
  simp only at hst has hcur
  subst hst
  subst has
  subst hcur
  simp [Connection.poll, Connection._poll_query, Connection._is_busy, hci,
    hnot, Connection._poll_advance_read, hbusy]

/-- Witness for C7 on the concrete idle connection. -/
theorem poll_ready_steady_state_witness :
    Connection.poll env0 sReady = Except.ok (Poll.ok, sReady) :=
  poll_ready_steady_state env0 sReady rfl rfl rfl rfl rfl rfl

/-- A successful `_execute_command` only appends the command to the
trace. -/
theorem execute_command_ok_state (env : Env) (cmd : String) (s : PgState)
    (u : Unit) (s2 : PgState)
    (h : Connection._execute_command env cmd s = Except.ok (u, s2)) :
    s2 = sendCmd s cmd := by
  unfold Connection._execute_command at h
  split at h
  · simp at h
  · split at h
    · simp at h
      exact h.symm
    · simp at h

/-- A successful `_set_guc` leaves every connection attribute unchanged
(it only touches the server store and the trace). -/
theorem set_guc_preserves_conn (env : Env) (n v : String) (s s' : PgState)
    (h : Connection._set_guc env n v s = Except.ok ((), s')) :
    s'.conn = s.conn := by
  unfold Connection._set_guc at h
  split at h
  all_goals dsimp only at h
  all_goals split at h
  case isTrue.h_1 u s2 heq =>
    have h2 := execute_command_ok_state env _ s u s2 heq
    simp at h
    rw [← h, h2]
    rfl
  case isTrue.h_2 e heq => simp at h
  case isFalse.h_1 u s2 heq =>
    have h2 := execute_command_ok_state env _ s u s2 heq
    simp at h
    rw [← h, h2]
    rfl
  case isFalse.h_2 e heq => simp at h

/-- Every successful run of the synchronous post-connect `_setup` leaves
`_autocommit` exactly as it was. -/
theorem setup_preserves_autocommit (env : Env) (s : PgState) (s' : PgState)
    (h : Connection._setup env s = Except.ok ((), s')) :
    s'.conn._autocommit = s.conn._autocommit := by
  simp only [Connection._setup] at h
  split at h
  · simp at h
  · split at h
    · split at h
      case h_1 e heq => simp at h
      case h_2 u s4 heq =>
        have h4 := set_guc_preserves_conn env "datestyle" "ISO" _ s4 heq
        simp at h
        rw [← h]
        simp [h4]
    · simp at h
      rw [← h]

/-- C9: every connection starts with autocommit off (`__init__`), the
synchronous connect path leaves it off, and the async post-connect setup
(`_poll_setup_async` from CONNECTING, driven by `poll()`) switches it on
in every branch past the cancel-token acquisition — so an async
connection begins its usable life in autocommit mode. -/
theorem async_setup_turns_autocommit_on (env : Env) (s : PgState)
    (hst : s.conn.status = Status.connecting)
    (hcan : env.getCancelOk = true) :
    ((Connection.init true)._autocommit = false)
    ∧ ((Connection.init false)._autocommit = false)
    ∧ (∀ r s', Connection._poll_setup_async env s = Except.ok (r, s') →
        s'.conn._autocommit = true)
    ∧ (∀ e s', Connection._poll_setup_async env s = Except.error (e, s') →
        s'.conn._autocommit = true)
    ∧ (∀ env2 : Env, ∀ s2 s' : PgState, s2.conn._autocommit = false →
        Connection._connect_sync env2 s2 = Except.ok ((), s') →
        s'.conn._autocommit = false) := by
  refine ⟨rfl, rfl, ?_, ?_, ?_⟩
  · intro r s' h
    simp [Connection._poll_setup_async, hst, hcan] at h
    split at h
    · split at h
      · simp at h
        rw [← h.2]
      · simp at h
    · simp at h
      rw [← h.2]
  · intro e s' h
    simp [Connection._poll_setup_async, hst, hcan] at h
    split at h
    · split at h
      · simp at h
      · simp only [Connection._create_exception, Connection._close] at h
        simp at h
        rw [← h.2]
        split
        · split <;> rfl
        · rfl
    · simp at h
  · intro env2 s2 s' h2 hc
    simp only [Connection._connect_sync] at hc
    split at hc
    · simp at hc
    · split at hc
      · simp at hc
      · have h3 := setup_preserves_autocommit env2 _ s' hc
        simpa [h2] using h3


/-- Witness for C9: the concrete async setup run ends in autocommit mode
while a fresh connection starts with it off. -/
theorem async_setup_turns_autocommit_on_witness :
    Connection._poll_setup_async env0 sConnecting
      = Except.ok (Poll.ok, sConnected)
    ∧ sConnected.conn._autocommit = true :=
  ⟨rfl, (async_setup_turns_autocommit_on env0 sConnecting rfl rfl).2.2.1
          Poll.ok sConnected rfl⟩

/-- The fields `_close` establishes, whatever the starting connection. -/
theorem close_fields (c : Conn) :
    (Connection._close c)._closed = true
    ∧ (Connection._close c)._cancel = false
    ∧ (Connection._close c)._pgconn = false := by
  unfold Connection._close
  dsimp only
  split <;> split <;> simp_all

/-- C4 counterexample: `close()` on an already-closed connection raises
InterfaceError (the `check_closed` guard) instead of succeeding. -/
theorem close_on_closed_raises :
    Connection.close env0 sClosed
      = Except.error
          (⟨ExcKind.interfaceError, "connection already closed"⟩, sClosed) :=
  rfl

/-- C4 amended: on a connection that is not closed, `close()` succeeds
and releases the cancel token and the transport handle while setting
`_closed`; the internal `_close` (run by `__del__` during teardown) is
idempotent; but the public `close()` raises InterfaceError when called
again on the already-closed connection rather than succeeding. -/
theorem close_spec (env : Env) (s : PgState)
    (h : Connection.closed env s.conn = false) :
    (Connection.close env s
        = Except.ok ((), { s with conn := Connection._close s.conn })
      ∧ (Connection._close s.conn)._closed = true
      ∧ (Connection._close s.conn)._cancel = false
      ∧ (Connection._close s.conn)._pgconn = false)
    ∧ (∀ c : Conn, Connection._close (Connection._close c) = Connection._close c)
    ∧ Connection.close env { s with conn := Connection._close s.conn }
        = Except.error (⟨ExcKind.interfaceError, "connection already closed"⟩,
            { s with conn := Connection._close s.conn }) := by
  refine ⟨⟨?_, (close_fields s.conn).1, (close_fields s.conn).2.1,
           (close_fields s.conn).2.2⟩, ?_, ?_⟩
  · simp [Connection.close, h]
  · intro c
    unfold Connection._close
    dsimp only
    by_cases h1 : c._cancel <;> by_cases h2 : c._pgconn <;> simp [h1, h2]
  · simp [Connection.close, Connection.closed, (close_fields s.conn).1]

/-- Witness for C4: concretely closing the open connection succeeds and
closing it a second time raises. -/
theorem close_spec_witness :
    Connection.close env0 sReady
      = Except.ok ((), { sReady with conn := Connection._close sReady.conn })
    ∧ Connection.close env0 { sReady with conn := Connection._close sReady.conn }
        = Except.error (⟨ExcKind.interfaceError, "connection already closed"⟩,
            { sReady with conn := Connection._close sReady.conn }) :=
  ⟨(close_spec env0 sReady rfl).1.1, (close_spec env0 sReady rfl).2.2⟩

/-- C2 counterexample: with the session's own identifier attached but
status READY — reachable when the COMMIT issued by an earlier
`tpc_commit()` failed, since `_commit`'s `finally` restores READY while
the exception skips the clearing lines of `_finish_tpc` —
`tpc_commit()` raises InterfaceError and the state it leaves still has
the identifier attached: the raising path does not clear it. -/
theorem tpc_commit_raise_keeps_xid :
    Connection.tpc_commit env0 none sTpcReady
      = Except.error (⟨ExcKind.interfaceError,
          "unexpected state in tpc_commit/tpc_rollback"⟩, sTpcReady)
    ∧ sTpcReady.conn._tpc_xid = some "tx" :=
  ⟨rfl, rfl⟩

/-- C2 amended: with an attached identifier on a usable synchronous
connection and a transport that accepts every command, `tpc_commit()` /
`tpc_rollback()` with no argument fall back to the ordinary
commit/rollback from BEGIN and issue the PREPARED variant from PREPARED,
and on those two (non-raising) paths clear the identifier and return
status to READY; from any other status they raise InterfaceError and
leave the state — including the attached identifier — unchanged. -/
theorem finish_tpc_spec (env : Env) (s : PgState) (x : String)
    (hx : s.conn._tpc_xid = some x)
    (hcl : s.conn._closed = false) (hbad : env.connBad = false)
    (hasync : s.conn._async = false)
    (hN : ∀ c, env.execNull c = false) (hOk : ∀ c, env.execOk c = true) :
    (s.conn.status = Status.begin_ → s.conn._autocommit = false →
       Connection.tpc_commit env none s = Except.ok ((),
         { s with conn := { s.conn with _mark := s.conn._mark + 1,
                                        status := Status.ready,
                                        _tpc_xid := none },
                  sent := s.sent ++ ["COMMIT"] })
       ∧ Connection.tpc_rollback env none s = Except.ok ((),
         { s with conn := { s.conn with _mark := s.conn._mark + 1,
                                        status := Status.ready,
                                        _tpc_xid := none },
                  sent := s.sent ++ ["ROLLBACK"] }))
    ∧ (s.conn.status = Status.prepared →
       Connection.tpc_commit env none s = Except.ok ((),
         { s with conn := { s.conn with _mark := s.conn._mark + 1,
                                        status := Status.ready,
                                        _tpc_xid := none },
                  sent := s.sent
                    ++ ["COMMIT PREPARED " ++ env.quote_string x] })
       ∧ Connection.tpc_rollback env none s = Except.ok ((),
         { s with conn := { s.conn with _mark := s.conn._mark + 1,
                                        status := Status.ready,
                                        _tpc_xid := none },
                  sent := s.sent
                    ++ ["ROLLBACK PREPARED " ++ env.quote_string x] }))
    ∧ (s.conn.status ≠ Status.begin_ → s.conn.status ≠ Status.prepared →
       Connection.tpc_commit env none s
         = Except.error (⟨ExcKind.interfaceError,
             "unexpected state in tpc_commit/tpc_rollback"⟩, s)
       ∧ Connection.tpc_rollback env none s
         = Except.error (⟨ExcKind.interfaceError,
             "unexpected state in tpc_commit/tpc_rollback"⟩, s)) := by
  refine ⟨?_, ?_, ?_⟩
  · intro hst hac
    constructor
    · simp [Connection.tpc_commit, Connection.closed, hcl, hbad, hasync,
        Connection._finish_tpc, hx, hst, Connection._commit, hac,
        Connection._execute_command, sendCmd, hN, hOk]
    · simp [Connection.tpc_rollback, Connection.closed, hcl, hbad, hasync,
        Connection._finish_tpc, hx, hst, Connection._rollback, hac,
        Connection._execute_command, sendCmd, hN, hOk]
  · intro hst
    constructor
    · simp [Connection.tpc_commit, Connection.closed, hcl, hbad, hasync,
        Connection._finish_tpc, hx, hst, Connection._execute_tpc_command,
        Connection._execute_command, sendCmd, hN, hOk]
    · simp [Connection.tpc_rollback, Connection.closed, hcl, hbad, hasync,
        Connection._finish_tpc, hx, hst, Connection._execute_tpc_command,
        Connection._execute_command, sendCmd, hN, hOk]
  · intro hne1 hne2
    constructor
    · simp [Connection.tpc_commit, Connection.closed, hcl, hbad, hasync,
        Connection._finish_tpc, hx, hne1, hne2]
    · simp [Connection.tpc_rollback, Connection.closed, hcl, hbad, hasync,
        Connection._finish_tpc, hx, hne1, hne2]


/-- Witness for C2 (amended) on a prepared two-phase transaction. -/
theorem finish_tpc_spec_witness :
    Connection.tpc_commit env0 none sTpcPrepared
      = Except.ok ((),
        { sTpcPrepared with
            conn := { sTpcPrepared.conn with
                        _mark := sTpcPrepared.conn._mark + 1,
                        status := Status.ready,
                        _tpc_xid := none },
            sent := sTpcPrepared.sent
              ++ ["COMMIT PREPARED " ++ env0.quote_string "tx"] }) :=
  ((finish_tpc_spec env0 sTpcPrepared "tx" rfl rfl rfl rfl
      (fun _ => rfl) (fun _ => rfl)).2.1 rfl).1

/-- C3 counterexample: a previous TPC identifier is still attached while
status is READY and autocommit is off (reachable after a `tpc_commit`
whose COMMIT failed), yet `tpc_begin` raises nothing: the code never
checks `_tpc_xid`, so it succeeds and silently overwrites the attached
identifier. -/
theorem tpc_begin_ignores_attached_xid :
    sTpcReady.conn._tpc_xid = some "tx"
    ∧ Connection.tpc_begin env0 "new" sTpcReady
      = Except.ok ((), { sTpcReady with
          conn := { sTpcReady.conn with status := Status.begin_,
                                        _tpc_xid := some "new" },
          sent := ["BEGIN"] }) :=
  ⟨rfl, rfl⟩

/-- C3 amended: `tpc_begin(xid)` raises ProgrammingError whenever status
is not READY or whenever autocommit is on; when both checks pass it
issues the implicit BEGIN, moves status to BEGIN and records the
identifier — even when a previous TPC identifier is still attached,
which the code does not check independently (an attached identifier
normally implies status BEGIN or PREPARED, so it is only caught through
the status check). -/
theorem tpc_begin_spec (env : Env) (s : PgState) (x : String)
    (hcl : s.conn._closed = false) (hbad : env.connBad = false)
    (hasync : s.conn._async = false)
    (hN : env.execNull "BEGIN" = false) (hOk : env.execOk "BEGIN" = true) :
    (s.conn.status ≠ Status.ready →
       Connection.tpc_begin env x s
         = Except.error (⟨ExcKind.programmingError,
             "tpc_begin must be called outside a transaction"⟩, s))
    ∧ (s.conn.status = Status.ready → s.conn._autocommit = true →
       Connection.tpc_begin env x s
         = Except.error (⟨ExcKind.programmingError,
             "tpc_begin cannot be called in autocommit mode"⟩, s))
    ∧ (s.conn.status = Status.ready → s.conn._autocommit = false →
       Connection.tpc_begin env x s = Except.ok ((),
         { s with conn := { s.conn with status := Status.begin_,
                                        _tpc_xid := some x },
                  sent := s.sent ++ ["BEGIN"] })) := by
  refine ⟨?_, ?_, ?_⟩
  · intro h1
    simp [Connection.tpc_begin, Connection.closed, hcl, hbad, hasync, h1]
  · intro h1 h2
    simp [Connection.tpc_begin, Connection.closed, hcl, hbad, hasync, h1, h2]
  · intro h1 h2
    simp [Connection.tpc_begin, Connection.closed, hcl, hbad, hasync, h1, h2,
      Connection._begin_transaction, Connection._execute_command, sendCmd,
      hN, hOk]

/-- Witness for C3 (amended): a concrete `tpc_begin` from READY with
autocommit off begins a transaction and records the identifier. -/
theorem tpc_begin_spec_witness :
    Connection.tpc_begin env0 "xa" sReady = Except.ok ((),
      { sReady with conn := { sReady.conn with status := Status.begin_,
                                               _tpc_xid := some "xa" },
                    sent := sReady.sent ++ ["BEGIN"] }) :=
  (tpc_begin_spec env0 sReady "xa" rfl rfl rfl rfl rfl).2.2 rfl rfl

/-- The `isolation_level` getter: autocommit answers 0 locally; otherwise
the level comes from a `SHOW` round trip on the server store. -/
theorem isolation_level_get (env : Env) (s : PgState)
    (hcl : s.conn._closed = false) (hbad : env.connBad = false)
    (hshow : env.showOk = true) :
    (s.conn._autocommit = true →
      Connection.isolation_level env s = Except.ok (0, s))
    ∧ (∀ p : Int, s.conn._autocommit = false →
        isolevel_of_name (pyLower (s.guc "default_transaction_isolation"))
          = some p →
        Connection.isolation_level env s
          = Except.ok (p, sendCmd s "SHOW default_transaction_isolation")) := by
  constructor
  · intro h
    simp [Connection.isolation_level, Connection.closed, hcl, hbad, h]
  · intro p h hp
    simp [Connection.isolation_level, Connection.closed, hcl, hbad, h,
      Connection._get_guc, hshow, sendCmd, hp]

/-- `set_session` with only the autocommit option is a purely local
update. -/
theorem set_session_autocommit_only (env : Env) (s : PgState) (b : Bool)
    (hcl : s.conn._closed = false) (hbad : env.connBad = false)
    (hst : s.conn.status = Status.ready) :
    Connection.set_session env none none none (some b) s
      = Except.ok ((), { s with conn := { s.conn with _autocommit := b } }) := by
  simp [Connection.set_session, Connection.closed, hcl, hbad, hst]

/-- `set_session` with an integer isolation level 1..4 and autocommit
off: writes the mapped name to the server store and switches autocommit
off. -/
theorem set_session_isolevel_int (env : Env) (s : PgState) (level : Int)
    (nm : String)
    (hcl : s.conn._closed = false) (hbad : env.connBad = false)
    (hst : s.conn.status = Status.ready)
    (h1 : 1 ≤ level) (h4 : level ≤ 4)
    (hnm : name_of_isolevel level = some nm)
    (hN : ∀ c, env.execNull c = false) (hOk : ∀ c, env.execOk c = true) :
    Connection.set_session env (some (Sum.inl level)) none none (some false) s
      = Except.ok ((), afterSetIso env s nm) := by
  have hg1 : ¬(level < 1) := by omega
  have hg4 : ¬(level > 4) := by omega
  simp [Connection.set_session, Connection.closed, hcl, hbad, hst, hg1, hg4,
    hnm, Connection._set_guc, Connection._execute_command, sendCmd, hN, hOk,
    afterSetIso]

/-- `set_isolation_level` unfolded one step past the range check and the
read of the previous level. -/
theorem set_isolation_level_unfold (env : Env) (st : PgState)
    (lv q : Int) (s1 : PgState)
    (hasync : st.conn._async = false) (h0 : 0 ≤ lv) (h4 : lv ≤ 4)
    (hprev : Connection.isolation_level env st = Except.ok (q, s1)) :
    Connection.set_isolation_level env lv st
      = (if q = lv then Except.ok ((), s1)
         else
           match Connection._rollback env s1 with
           | Except.error e => Except.error e
           | Except.ok (_, s2) =>
             if lv = 0 then
               Connection.set_session env none none none (some true) s2
             else
               Connection.set_session env (some (Sum.inl lv)) none none
                 (some false) s2) := by
  have hc1 : ¬(lv < 0) := by omega
  have hc2 : ¬(lv > 4) := by omega
  simp [Connection.set_isolation_level, hasync, hc1, hc2, hprev]

/-- The full round trip after `set_session` applied an integer isolation
level: the getter reports `L` back and a repeated
`set_isolation_level L` stops at the early return, touching neither the
connection attributes nor the server store. -/
theorem set_isolevel_full_path (env : Env) (B : PgState) (L : Int)
    (nm : String)
    (hcl : B.conn._closed = false) (hbad : env.connBad = false)
    (hasync : B.conn._async = false) (hst : B.conn.status = Status.ready)
    (hshow : env.showOk = true)
    (hN : ∀ c, env.execNull c = false) (hOk : ∀ c, env.execOk c = true)
    (h1 : 1 ≤ L) (h4 : L ≤ 4)
    (hnm : name_of_isolevel L = some nm)
    (hrt : isolevel_of_name (pyLower nm) = some L) :
    Connection.set_session env (some (Sum.inl L)) none none (some false) B
      = Except.ok ((), afterSetIso env B nm)
    ∧ Connection.isolation_level env (afterSetIso env B nm)
      = Except.ok (L,
          sendCmd (afterSetIso env B nm) "SHOW default_transaction_isolation")
    ∧ Connection.set_isolation_level env L (afterSetIso env B nm)
      = Except.ok ((),
          sendCmd (afterSetIso env B nm) "SHOW default_transaction_isolation") := by
  have hget2 : Connection.isolation_level env (afterSetIso env B nm)
      = Except.ok (L,
          sendCmd (afterSetIso env B nm) "SHOW default_transaction_isolation") :=
    (isolation_level_get env (afterSetIso env B nm) hcl hbad hshow).2 L rfl hrt
  refine ⟨set_session_isolevel_int env B L nm hcl hbad hst h1 h4 hnm hN hOk,
          hget2, ?_⟩
  have hU2 := set_isolation_level_unfold env (afterSetIso env B nm) L L
    (sendCmd (afterSetIso env B nm) "SHOW default_transaction_isolation")
    hasync (by omega) (by omega) hget2
  rw [if_pos rfl] at hU2
  exact hU2

/-- The purely-local autocommit path of `set_session` and the round trip
it gives: the getter answers 0 without a server round trip and a
repeated `set_isolation_level 0` is the identity. -/
theorem set_autocommit_path (env : Env) (B : PgState)
    (hcl : B.conn._closed = false) (hbad : env.connBad = false)
    (hasync : B.conn._async = false) (hst : B.conn.status = Status.ready)
    (hshow : env.showOk = true) :
    Connection.set_session env none none none (some true) B
      = Except.ok ((), { B with conn := { B.conn with _autocommit := true } })
    ∧ Connection.isolation_level env
        { B with conn := { B.conn with _autocommit := true } }
      = Except.ok (0, { B with conn := { B.conn with _autocommit := true } })
    ∧ Connection.set_isolation_level env 0
        { B with conn := { B.conn with _autocommit := true } }
      = Except.ok ((),
          { B with conn := { B.conn with _autocommit := true } }) := by
  have hget0 : Connection.isolation_level env
      { B with conn := { B.conn with _autocommit := true } }
      = Except.ok (0, { B with conn := { B.conn with _autocommit := true } }) :=
    (isolation_level_get env
      { B with conn := { B.conn with _autocommit := true } }
      hcl hbad hshow).1 rfl
  refine ⟨set_session_autocommit_only env B true hcl hbad hst, hget0, ?_⟩
  have hU2 := set_isolation_level_unfold env
    { B with conn := { B.conn with _autocommit := true } } 0 0
    { B with conn := { B.conn with _autocommit := true } }
    hasync (by omega) (by omega) hget0
  rw [if_pos rfl] at hU2
  exact hU2

/-- C6 counterexample: setting level 0 (autocommit) from a non-autocommit
connection performs a GUC read — the `SHOW default_transaction_isolation`
issued to fetch the previous level — so level 0 is not handled "without
any GUC read"; only the GUC write is avoided. -/
theorem set_isolation_level_zero_reads_guc :
    Connection.set_isolation_level env0 0 sReady
      = Except.ok ((), { sReady with
          conn := { sReady.conn with _autocommit := true },
          sent := ["SHOW default_transaction_isolation"] }) := rfl

/-- C6 amended: for every level 0..4 on a usable synchronous connection
in READY whose server store holds a recognised isolation name,
`set_isolation_level` succeeds, reading the level back returns the same
level, and repeating the set is idempotent on the connection attributes
and the server store (at most the SHOW that fetches the current level is
re-issued); `set_isolation_level(0)` performs no GUC write — the server
store is untouched and the only command possibly issued is the GUC read
(`SHOW`) used to fetch the current level when autocommit is not already
active; any level outside 0..4 raises ValueError. -/
theorem set_isolation_level_spec (env : Env) (s : PgState)
    (level : Int) (p : Int)
    (hcl : s.conn._closed = false) (hbad : env.connBad = false)
    (hasync : s.conn._async = false) (hst : s.conn.status = Status.ready)
    (hshow : env.showOk = true)
    (hN : ∀ c, env.execNull c = false) (hOk : ∀ c, env.execOk c = true)
    (hguc : isolevel_of_name
        (pyLower (s.guc "default_transaction_isolation")) = some p)
    (h0 : 0 ≤ level) (h4 : level ≤ 4) :
    (∃ s', Connection.set_isolation_level env level s = Except.ok ((), s')
       ∧ (∃ s'', Connection.isolation_level env s' = Except.ok (level, s''))
       ∧ (∃ s2, Connection.set_isolation_level env level s'
                  = Except.ok ((), s2)
            ∧ s2.conn = s'.conn ∧ s2.guc = s'.guc))
    ∧ (∃ s', Connection.set_isolation_level env 0 s = Except.ok ((), s')
       ∧ s'.guc = s.guc
       ∧ s'.sent = s.sent ++ (if s.conn._autocommit then []
            else ["SHOW default_transaction_isolation"]))
    ∧ (∀ lvl : Int, lvl < 0 ∨ 4 < lvl →
       Connection.set_isolation_level env lvl s
         = Except.error (⟨ExcKind.valueError,
             "isolation level must be between 0 and 4"⟩, s)) := by
  have hget := isolation_level_get env s hcl hbad hshow
  have hst1 : (sendCmd s "SHOW default_transaction_isolation").conn.status
      = Status.ready := hst
  have hro1 : Connection._rollback env
      (sendCmd s "SHOW default_transaction_isolation")
      = Except.ok ((), sendCmd s "SHOW default_transaction_isolation") := by
    simp [Connection._rollback, hst1]
  refine ⟨?_, ?_, ?_⟩
  · rcases (Bool.eq_false_or_eq_true s.conn._autocommit).symm with hac | hac
    · -- autocommit off: the previous level is read from the server
      have hprev := hget.2 p hac hguc
      have hU := set_isolation_level_unfold env s level p
        (sendCmd s "SHOW default_transaction_isolation") hasync h0 h4 hprev
      by_cases hpl : p = level
      · rw [if_pos hpl] at hU
        have hget1 := isolation_level_get env
          (sendCmd s "SHOW default_transaction_isolation") hcl hbad hshow
        have hprev1 := hget1.2 p hac hguc
        have hU2 := set_isolation_level_unfold env
          (sendCmd s "SHOW default_transaction_isolation") level p
          (sendCmd (sendCmd s "SHOW default_transaction_isolation")
            "SHOW default_transaction_isolation") hasync h0 h4 hprev1
        rw [if_pos hpl] at hU2
        exact ⟨_, hU, ⟨_, hpl ▸ hprev1⟩, _, hU2, rfl, rfl⟩
      · rw [if_neg hpl] at hU
        simp only [hro1] at hU
        by_cases hl0 : level = 0
        · subst hl0
          rw [if_pos rfl] at hU
          have hpath := set_autocommit_path env
            (sendCmd s "SHOW default_transaction_isolation")
            hcl hbad hasync hst1 hshow
          rw [hpath.1] at hU
          exact ⟨_, hU, ⟨_, hpath.2.1⟩, _, hpath.2.2, rfl, rfl⟩
        · rw [if_neg hl0] at hU
          interval_cases level
          · exact absurd rfl hl0
          · have hfp := set_isolevel_full_path env
              (sendCmd s "SHOW default_transaction_isolation") 1
              "read uncommitted" hcl hbad hasync hst1 hshow hN hOk
              (by omega) (by omega) rfl (by decide)
            rw [hfp.1] at hU
            exact ⟨_, hU, ⟨_, hfp.2.1⟩, _, hfp.2.2, rfl, rfl⟩
          · have hfp := set_isolevel_full_path env
              (sendCmd s "SHOW default_transaction_isolation") 2
              "read committed" hcl hbad hasync hst1 hshow hN hOk
              (by omega) (by omega) rfl (by decide)
            rw [hfp.1] at hU
            exact ⟨_, hU, ⟨_, hfp.2.1⟩, _, hfp.2.2, rfl, rfl⟩
          · have hfp := set_isolevel_full_path env
              (sendCmd s "SHOW default_transaction_isolation") 3
              "repeatable read" hcl hbad hasync hst1 hshow hN hOk
              (by omega) (by omega) rfl (by decide)
            rw [hfp.1] at hU
            exact ⟨_, hU, ⟨_, hfp.2.1⟩, _, hfp.2.2, rfl, rfl⟩
          · have hfp := set_isolevel_full_path env
              (sendCmd s "SHOW default_transaction_isolation") 4
              "serializable" hcl hbad hasync hst1 hshow hN hOk
              (by omega) (by omega) rfl (by decide)
            rw [hfp.1] at hU
            exact ⟨_, hU, ⟨_, hfp.2.1⟩, _, hfp.2.2, rfl, rfl⟩
    · -- autocommit on: the previous level is 0, read locally
      have hprev := hget.1 hac
      have hU := set_isolation_level_unfold env s level 0 s hasync h0 h4 hprev
      by_cases hl0 : level = 0
      · subst hl0
        rw [if_pos rfl] at hU
        have hU2 := set_isolation_level_unfold env s 0 0 s hasync
          (by omega) (by omega) hprev
        rw [if_pos rfl] at hU2
        exact ⟨s, hU, ⟨s, hprev⟩, s, hU2, rfl, rfl⟩
      · rw [if_neg (by omega)] at hU
        have hros : Connection._rollback env s = Except.ok ((), s) := by
          simp [Connection._rollback, hac]
        simp only [hros] at hU
        rw [if_neg hl0] at hU
        interval_cases level
        · exact absurd rfl hl0
        · have hfp := set_isolevel_full_path env s 1 "read uncommitted"
            hcl hbad hasync hst hshow hN hOk (by omega) (by omega) rfl
            (by decide)
          rw [hfp.1] at hU
          exact ⟨_, hU, ⟨_, hfp.2.1⟩, _, hfp.2.2, rfl, rfl⟩
        · have hfp := set_isolevel_full_path env s 2 "read committed"
            hcl hbad hasync hst hshow hN hOk (by omega) (by omega) rfl
            (by decide)
          rw [hfp.1] at hU
          exact ⟨_, hU, ⟨_, hfp.2.1⟩, _, hfp.2.2, rfl, rfl⟩
        · have hfp := set_isolevel_full_path env s 3 "repeatable read"
            hcl hbad hasync hst hshow hN hOk (by omega) (by omega) rfl
            (by decide)
          rw [hfp.1] at hU
          exact ⟨_, hU, ⟨_, hfp.2.1⟩, _, hfp.2.2, rfl, rfl⟩
        · have hfp := set_isolevel_full_path env s 4 "serializable"
            hcl hbad hasync hst hshow hN hOk (by omega) (by omega) rfl
            (by decide)
          rw [hfp.1] at hU
          exact ⟨_, hU, ⟨_, hfp.2.1⟩, _, hfp.2.2, rfl, rfl⟩
  · rcases (Bool.eq_false_or_eq_true s.conn._autocommit).symm with hac | hac
    · have hprev := hget.2 p hac hguc
      have hU := set_isolation_level_unfold env s 0 p
        (sendCmd s "SHOW default_transaction_isolation") hasync
        (by omega) (by omega) hprev
      by_cases hp0 : p = 0
      · rw [if_pos hp0] at hU
        exact ⟨_, hU, rfl, by simp [hac, sendCmd]⟩
      · rw [if_neg hp0] at hU
        simp only [hro1, if_true] at hU
        rw [set_session_autocommit_only env
          (sendCmd s "SHOW default_transaction_isolation")
          true hcl hbad hst1] at hU
        exact ⟨_, hU, rfl, by simp [hac, sendCmd]⟩
    · have hU := set_isolation_level_unfold env s 0 0 s hasync
        (by omega) (by omega) (hget.1 hac)
      rw [if_pos rfl] at hU
      exact ⟨_, hU, rfl, by simp [hac]⟩
  · intro lvl hl
    have hc : (decide (lvl < 0) || decide (lvl > 4)) = true := by
      simp
      omega
    simp [Connection.set_isolation_level, hasync, hc]

/-- Witness for C6 (amended): the out-of-range level 5 raises ValueError
on the concrete connection. -/
theorem set_isolation_level_spec_witness :
    Connection.set_isolation_level env0 5 sReady
      = Except.error (⟨ExcKind.valueError,
          "isolation level must be between 0 and 4"⟩, sReady) :=
  (set_isolation_level_spec env0 sReady 2 2 rfl rfl rfl rfl rfl
      (fun _ => rfl) (fun _ => rfl) (by decide) (by decide) (by decide)).2.2
    5 (by omega)

end Psycopg
